import Mathlib

/-
  Verification of the ai-trader backend against its design document.

  Shallow embedding conventions:
  * Python floats are modelled as exact rationals (ℚ).  No claim below
    depends on binary floating-point rounding.
  * Python's `round(x, 2)` is modelled as round-half-up to two decimals;
    Python uses banker's rounding on ties, but no claim exercises a tie.
  * The f-string reason/warning messages of the risk manager are
    abstracted to tags (one constructor per distinct message site); the
    claims only talk about the presence and kind of a reason/warning.
  * `RiskConfig.__post_init__` environment overrides are modelled by
    quantifying over arbitrary configurations; `defaultRiskConfig` is the
    dataclass-default configuration (no environment variables set).
-/

namespace Risk

/-- backend/risk/manager.py: class RiskLevel(str, Enum). -/
inductive RiskLevel where
  | low
  | medium
  | high
  | critical
deriving DecidableEq, Repr

/-- Position of a level in `list(RiskLevel)`, used by the Python code as
`key=lambda x: list(RiskLevel).index(x)`. -/
def RiskLevel.index : RiskLevel → Nat
  | .low => 0
  | .medium => 1
  | .high => 2
  | .critical => 3

/-- Python `max(a, b, key=index)`: returns the first argument on ties. -/
def RiskLevel.maxBy (a b : RiskLevel) : RiskLevel :=
  if b.index ≤ a.index then a else b

/-- Tags for the distinct `reasons.append(...)` sites of
`RiskManager.assess_trade` (f-string payloads abstracted away). -/
inductive Reason where
  | killSwitch
  | dailyLoss
  | consecutiveLosses
  | maxTotalPositions
  | maxSymbolPositions
  | spreadTooWide
  | volatilityTooLow
  | volatilityTooHigh
  | exposureLimit
  | confidenceTooLow
deriving DecidableEq, Repr

/-- Tags for the distinct `warnings.append(...)` sites of
`RiskManager.assess_trade`. -/
inductive Warning where
  | consecutiveLossWarning
  | positionSizeReduced
  | lowConfidence
deriving DecidableEq, Repr

/-- backend/risk/manager.py: dataclass RiskConfig (fields used by
`assess_trade`; correlation limit and profit target are never read). -/
structure RiskConfig where
  daily_loss_limit_pct : ℚ
  max_position_size_pct : ℚ
  max_total_exposure_pct : ℚ
  max_consecutive_losses : ℕ
  max_positions_per_symbol : ℕ
  max_total_positions : ℕ
  max_spread_points : ℚ
  min_volatility_atr : ℚ
  max_volatility_atr : ℚ
  kill_switch_active : Bool
deriving Repr

/-- The dataclass defaults of RiskConfig (no environment overrides). -/
def defaultRiskConfig : RiskConfig :=
  { daily_loss_limit_pct := 2
    max_position_size_pct := 5
    max_total_exposure_pct := 30
    max_consecutive_losses := 3
    max_positions_per_symbol := 2
    max_total_positions := 10
    max_spread_points := 3
    min_volatility_atr := 0
    max_volatility_atr := 1000
    kill_switch_active := false }

/-- backend/risk/manager.py: `self.daily_stats` after `_check_daily_reset`
has run (the `last_reset` date bookkeeping is time-dependent and orthogonal
to every claim below, so assessments are modelled on the post-reset stats). -/
structure DailyStats where
  pnl : ℚ
  trades_count : ℕ
  consecutive_losses : ℕ
deriving Repr

/-- Fresh daily stats, as produced by the daily reset. -/
def freshStats : DailyStats :=
  { pnl := 0, trades_count := 0, consecutive_losses := 0 }

/-- An entry of the `current_positions` argument: the code reads only
`p.get('symbol')` and `p.get('volume', 0)`. -/
structure Position where
  symbol : String
  volume : ℚ
deriving Repr

/-- backend/risk/manager.py: dataclass RiskAssessment.  The `metrics`
dictionary is a reporting snapshot read by no claim and is omitted. -/
structure RiskAssessment where
  approved : Bool
  risk_level : RiskLevel
  position_size_lots : ℚ
  reasons : List Reason
  warnings : List Warning
deriving Repr

/-- Python `round(x, 2)` modelled as round-half-up to two decimals. -/
def round2 (q : ℚ) : ℚ := (round (q * 100) : ℤ) / 100

/-- backend/risk/manager.py: `RiskManager._calculate_position_size`. -/
def calculatePositionSize (cfg : RiskConfig) (account_equity signal_confidence stop_loss_points : ℚ) : ℚ :=
  let base_risk_pct := cfg.max_position_size_pct
  let confidence_multiplier := max (1/2) signal_confidence
  let risk_pct := base_risk_pct * confidence_multiplier
  let risk_amount := account_equity * (risk_pct / 100)
  let point_value : ℚ := 10
  let sl := if stop_loss_points = 0 then 50 else stop_loss_points
  let lots := risk_amount / (sl * point_value)
  let lots := round2 lots
  max (1/100) (min lots 10)

/-- The mutable locals (`approved`, `risk_level`, `reasons`, `warnings`)
threaded through the sequential checks of `assess_trade`. -/
structure Acc where
  approved : Bool
  risk_level : RiskLevel
  reasons : List Reason
  warnings : List Warning
deriving Repr

/-- Initial accumulator: `approved = True`, `risk_level = LOW`, empty lists. -/
def initAcc : Acc :=
  { approved := true, risk_level := .low, reasons := [], warnings := [] }

/-- assess_trade step 2: daily loss limit. -/
def checkDailyLoss (cfg : RiskConfig) (stats : DailyStats) (account_equity : ℚ) (a : Acc) : Acc :=
  let daily_loss_limit := account_equity * (cfg.daily_loss_limit_pct / 100)
  if stats.pnl ≤ -daily_loss_limit then
    { a with approved := false, reasons := a.reasons ++ [.dailyLoss], risk_level := .critical }
  else a

/-- assess_trade step 3: consecutive losses. -/
def checkConsecutiveLosses (cfg : RiskConfig) (stats : DailyStats) (a : Acc) : Acc :=
  if cfg.max_consecutive_losses ≤ stats.consecutive_losses then
    { a with approved := false, reasons := a.reasons ++ [.consecutiveLosses], risk_level := .critical }
  else if cfg.max_consecutive_losses - 1 ≤ stats.consecutive_losses then
    { a with warnings := a.warnings ++ [.consecutiveLossWarning], risk_level := .high }
  else a

/-- assess_trade step 4: total positions limit. -/
def checkTotalPositions (cfg : RiskConfig) (current_positions : List Position) (a : Acc) : Acc :=
  if cfg.max_total_positions ≤ current_positions.length then
    { a with approved := false, reasons := a.reasons ++ [.maxTotalPositions] }
  else a

/-- assess_trade step 5: per-symbol position limit. -/
def checkSymbolPositions (cfg : RiskConfig) (current_positions : List Position) (symbol : String) (a : Acc) : Acc :=
  let symbol_positions := current_positions.filter (fun p => p.symbol = symbol)
  if cfg.max_positions_per_symbol ≤ symbol_positions.length then
    { a with approved := false, reasons := a.reasons ++ [.maxSymbolPositions] }
  else a

/-- assess_trade step 6: spread filter (`spread_points is not None and >`). -/
def checkSpread (cfg : RiskConfig) (spread_points : Option ℚ) (a : Acc) : Acc :=
  match spread_points with
  | none => a
  | some s =>
    if cfg.max_spread_points < s then
      { a with approved := false, reasons := a.reasons ++ [.spreadTooWide] }
    else a

/-- assess_trade step 7: volatility band filter. -/
def checkVolatility (cfg : RiskConfig) (volatility_atr : Option ℚ) (a : Acc) : Acc :=
  match volatility_atr with
  | none => a
  | some v =>
    if v < cfg.min_volatility_atr then
      { a with approved := false, reasons := a.reasons ++ [.volatilityTooLow] }
    else if cfg.max_volatility_atr < v then
      { a with approved := false, reasons := a.reasons ++ [.volatilityTooHigh] }
    else a

/-- The `sum(p.get('volume', 0) * 100000 for p in current_positions)` total. -/
def currentExposure (current_positions : List Position) : ℚ :=
  (current_positions.map (fun p => p.volume * 100000)).sum

/-- The `account_equity * (max_total_exposure_pct / 100)` budget. -/
def maxExposure (cfg : RiskConfig) (account_equity : ℚ) : ℚ :=
  account_equity * (cfg.max_total_exposure_pct / 100)

/-- assess_trade step 9: total exposure check; returns the updated
accumulator and the (possibly reduced) position size. -/
def checkExposure (cfg : RiskConfig) (current_positions : List Position) (account_equity : ℚ)
    (position_size_lots : ℚ) (a : Acc) : Acc × ℚ :=
  let current_exposure := currentExposure current_positions
  let new_exposure := current_exposure + position_size_lots * 100000
  let max_exposure := maxExposure cfg account_equity
  if max_exposure < new_exposure then
    let max_new_lots := (max_exposure - current_exposure) / 100000
    if max_new_lots ≤ 0 then
      ({ a with approved := false, reasons := a.reasons ++ [.exposureLimit] }, position_size_lots)
    else
      ({ a with warnings := a.warnings ++ [.positionSizeReduced], risk_level := .medium },
       min position_size_lots max_new_lots)
  else (a, position_size_lots)

/-- assess_trade step 10: signal confidence check.  NOTE: translated
verbatim from the source — the `elif signal_confidence < 0.5` rejection
branch is unreachable because any confidence below 0.5 already satisfies
the first guard `signal_confidence < 0.6`. -/
def checkConfidence (signal_confidence : ℚ) (a : Acc) : Acc :=
  if signal_confidence < 6/10 then
    { a with warnings := a.warnings ++ [.lowConfidence],
             risk_level := a.risk_level.maxBy .medium }
  else if signal_confidence < 1/2 then
    { a with approved := false, reasons := a.reasons ++ [.confidenceTooLow] }
  else a

/-- backend/risk/manager.py: `RiskManager.assess_trade`, with the daily
reset already applied to `stats`.  `direction` and `account_balance` are
accepted and ignored, exactly as in the source. -/
def assessTrade (cfg : RiskConfig) (stats : DailyStats) (symbol : String)
    (direction : String) (account_balance account_equity signal_confidence stop_loss_points : ℚ)
    (current_positions : List Position) (spread_points volatility_atr : Option ℚ) : RiskAssessment :=
  if cfg.kill_switch_active then
    { approved := false, risk_level := .critical, position_size_lots := 0,
      reasons := [.killSwitch], warnings := [] }
  else
    let a := initAcc
    let a := checkDailyLoss cfg stats account_equity a
    let a := checkConsecutiveLosses cfg stats a
    let a := checkTotalPositions cfg current_positions a
    let a := checkSymbolPositions cfg current_positions symbol a
    let a := checkSpread cfg spread_points a
    let a := checkVolatility cfg volatility_atr a
    let position_size_lots := calculatePositionSize cfg account_equity signal_confidence stop_loss_points
    let r := checkExposure cfg current_positions account_equity position_size_lots a
    let a := checkConfidence signal_confidence r.1
    { approved := a.approved, risk_level := a.risk_level, position_size_lots := r.2,
      reasons := a.reasons, warnings := a.warnings }

end Risk

namespace RateLimit

/-- backend/common/auth.py, `RateLimiter.is_allowed`: the pruning step
`[ts for ts in self.requests[key] if ts > cutoff]` with
`cutoff = now - window_seconds`.  Timestamps are injected integers. -/
def prune (window now : Int) (st : List Int) : List Int :=
  st.filter (fun ts => now - window < ts)

/-- backend/common/auth.py: `RateLimiter.is_allowed` for one key, with the
current time injected.  Returns the admission verdict and the key's new
timestamp list (`self.requests[key]`). -/
def is_allowed (max_requests : ℕ) (window : Int) (st : List Int) (now : Int) :
    Bool × List Int :=
  let kept := prune window now st
  if max_requests ≤ kept.length then
    (false, kept)
  else
    (true, kept ++ [now])

/-- A sequence of calls to `is_allowed` for one key with injected
timestamps; returns the final timestamp list and the subsequence of call
times that were admitted. -/
def runCalls (max_requests : ℕ) (window : Int) (st : List Int) :
    List Int → List Int × List Int
  | [] => (st, [])
  | now :: rest =>
    let step := is_allowed max_requests window st now
    let r := runCalls max_requests window step.2 rest
    (r.1, (if step.1 then [now] else []) ++ r.2)

end RateLimit

namespace Pipeline

/-- backend/database/models.py: class SignalStatus(str, enum.Enum). -/
inductive SignalStatus where
  | received
  | validated
  | rejected
  | executed
  | failed
deriving DecidableEq, Repr

/-- The dictionary returned by `ai_client.get_prediction` (fields read by
the pipeline). -/
structure Prediction where
  model_name : String
  prediction : ℚ
  confidence : ℚ
  expected_return : ℚ
deriving Repr

/-- The dictionary returned by `ai_client.validate_signal`. -/
structure Verdict where
  approved : Bool
  reasoning : String
  confidence : ℚ
deriving Repr

/-- Outcomes of the two fallible collaborator calls made inside the `try`
block of `process_signal_pipeline` (`ai_client.get_prediction` and
`ai_client.validate_signal`); an `error` is any raised exception, caught
by the pipeline's `except` handler.  Persistence (`db.commit`) is the
out-of-scope storage collaborator, assumed durable per the design. -/
structure PipelineEnv where
  predictionResult : Except String Prediction
  validationResult : Except String Verdict

/-- backend/webhook/app.py: `process_signal_pipeline`, abstracted to the
sequence of Signal statuses it persists.  The signal enters with status
RECEIVED (persisted by `receive_signal` before the task is enqueued);
each later `signal.status = ...; db.commit()` appends one status.  The
risk step is the source's literal placeholder `risk_approved = True`.
The post-commit broadcasts cannot raise: `broadcast_to_room` catches
per-connection send errors (see `Hub.broadcastToRoom`, a total function). -/
def processTrace (env : PipelineEnv) : List SignalStatus :=
  SignalStatus.received ::
    (match env.predictionResult with
     | .error _ => [SignalStatus.failed]
     | .ok _pred =>
       match env.validationResult with
       | .error _ => [SignalStatus.failed]
       | .ok verdict =>
         if !verdict.approved then
           [SignalStatus.rejected]
         else
           let risk_approved := true
           if !risk_approved then
             [SignalStatus.rejected]
           else
             [SignalStatus.executed])

end Pipeline

namespace LLMV

/-- The JSON value decoded from a 200-status body by `_call_llm`
(`json.loads(result.get('response', '{}'))`), abstracted to the
behaviour of the field accesses `_parse_llm_response` performs on it.
Each access that can raise — the `.get` itself when the decoded body is
not a dict, `float(llm_response.get('confidence', 0.5))` on a
non-convertible value, and each `', '.join(...)` on a truthy value that
is not an iterable of strings — is either a value or the raised
exception's message; `get('approved', False)` and
`get('reasoning', ...)` cannot raise (a missing field falls back to the
source's default and belongs to a genuine, possibly rejecting, verdict
rather than to a failure).  Python truthiness of a non-bool `approved`
value is abstracted to Bool. -/
structure RawResponse where
  dictAccess : Except String Unit
  approved : Bool
  confidence : Except String ℚ
  reasoning : String
  favorable_factors : Except String (List String)
  risk_factors : Except String (List String)

/-- Outcome of the HTTP call inside `LLMValidator._call_llm`.  A 200
response whose body is JSON-parseable is returned normally as a
`RawResponse`, whatever its field types — field-level failures surface
later, inside `_parse_llm_response`; `invalidJson` is a 200 response
whose body `json.loads` cannot parse at all, which raises inside
`_call_llm` itself. -/
inductive LLMOutcome where
  | response (resp : RawResponse)
  | connectionError
  | httpError (code : ℕ)
  | invalidJson (msg : String)

/-- backend/model/llm_validator.py: `LLMValidator._fallback_validation`,
a well-typed dict on which every parse step succeeds. -/
def fallbackValidation : RawResponse :=
  { dictAccess := .ok ()
    approved := true
    confidence := .ok (7/10)
    reasoning := "LLM service unavailable. Using rule-based fallback validation. AI and Risk checks passed."
    favorable_factors := .ok ["AI model approved", "Risk manager approved"]
    risk_factors := .ok ["LLM service offline", "Limited validation depth"] }

/-- backend/model/llm_validator.py: `LLMValidator._call_llm`.  A
connection error is answered by the fallback dict; a non-200 status or a
JSON-unparseable body re-raises as `"LLM call failed: ..."`; a 200
JSON-parseable body is returned normally. -/
def callLLM (outcome : LLMOutcome) : Except String RawResponse :=
  match outcome with
  | .response r => .ok r
  | .connectionError => .ok fallbackValidation
  | .httpError code => .error ("LLM call failed: LLM API error: " ++ toString code)
  | .invalidJson msg => .error ("LLM call failed: " ++ msg)

/-- backend/model/llm_validator.py: `LLMValidator._parse_llm_response`,
including its internal `try`/`except`: the first raising field access
aborts the parse and the `except` branch returns the REJECTED verdict
`(False, "Failed to parse LLM response: ...", 0.0)`.  Raise sites are
checked in the source's evaluation order: the dict access, then
`float(...)` on the confidence, then the favorable-factor join, then the
risk-factor join. -/
def parseLLMResponse (r : RawResponse) : Bool × String × ℚ :=
  match r.dictAccess with
  | .error e => (false, "Failed to parse LLM response: " ++ e, 0)
  | .ok _ =>
    match r.confidence with
    | .error e => (false, "Failed to parse LLM response: " ++ e, 0)
    | .ok conf =>
      match r.favorable_factors with
      | .error e => (false, "Failed to parse LLM response: " ++ e, 0)
      | .ok fav =>
        match r.risk_factors with
        | .error e => (false, "Failed to parse LLM response: " ++ e, 0)
        | .ok risks =>
          let parts := [r.reasoning]
            ++ (if fav ≠ [] then
                  ["\nPositive factors: " ++ String.intercalate ", " fav]
                else [])
            ++ (if risks ≠ [] then
                  ["\nRisk factors: " ++ String.intercalate ", " risks]
                else [])
          (r.approved, String.intercalate "\n" parts, conf)

/-- backend/model/llm_validator.py: `LLMValidator.validate_signal`
(returns the `(approved, reasoning, confidence)` triple).  Note that a
parse failure inside `_parse_llm_response` does NOT reach the outer
`except` here: its rejected verdict is returned normally. -/
def validateSignal (enabled : Bool) (outcome : LLMOutcome) : Bool × String × ℚ :=
  if !enabled then
    (true, "LLM validation disabled", 1)
  else
    match callLLM outcome with
    | .ok resp => parseLLMResponse resp
    | .error e => (true, "LLM validation error: " ++ e, 1/2)

/-- Whether some field access of `_parse_llm_response` raises on this
decoded body. -/
def parseRaises (r : RawResponse) : Bool :=
  match r.dictAccess, r.confidence, r.favorable_factors, r.risk_factors with
  | .ok _, .ok _, .ok _, .ok _ => false
  | _, _, _, _ => true

/-- A collaborator-failure outcome: the LLM service is unreachable, it
answers a non-200 status, its body is not JSON-parseable, or the body
parses as JSON but its ill-typed fields make `_parse_llm_response`
raise. -/
def isFailure (outcome : LLMOutcome) : Prop :=
  match outcome with
  | .response r => parseRaises r = true
  | .connectionError => True
  | .httpError _ => True
  | .invalidJson _ => True

instance (outcome : LLMOutcome) : Decidable (isFailure outcome) := by
  unfold isFailure
  cases outcome <;> infer_instance

end LLMV

namespace Webhook

/-- One inbound webhook request as seen by `receive_signal`, together
with the outcomes of its boundary checks: `rateAllowed` is the result of
`rate_limiter.is_allowed(client_ip, 10, 60)` and `payloadValid` whether
`SignalPayload(**json.loads(body))` succeeds.  `signature` is the
`X-TradingView-Signature` header, `""` when the header is absent
(the source uses `request.headers.get(..., '')`). -/
structure WebhookRequest where
  body : String
  signature : String
  rateAllowed : Bool
  payloadValid : Bool

/-- Result of the admission path of `receive_signal`: the three
synchronous rejections (429 / 401 / 400), or admission — which creates
the Signal record with status RECEIVED and enqueues exactly one
`process_signal_pipeline` background task. -/
inductive AdmissionOutcome where
  | rateLimited
  | invalidSignature
  | invalidPayload
  | admitted (signalCreated pipelineEnqueued : Bool)
deriving DecidableEq, Repr

/-- backend/webhook/app.py: the admission control of `receive_signal`.
`hmacHex body` abstracts `WebhookSignatureValidator.generate_signature`
(HMAC-SHA256 of the raw body under the configured secret);
`validate_signature` is `compare_digest` of that digest with the header.
Translated verbatim: the signature is only checked when the header is
non-empty (`if signature and not ...validate_signature(...)`). -/
def receiveSignal (hmacHex : String → String) (req : WebhookRequest) : AdmissionOutcome :=
  if !req.rateAllowed then
    .rateLimited
  else if req.signature ≠ "" ∧ hmacHex req.body ≠ req.signature then
    .invalidSignature
  else if !req.payloadValid then
    .invalidPayload
  else
    .admitted true true

end Webhook

namespace Hub

/-- The `self.active_connections` map: room name to the room's connection set,
modelled as an association list (first-occurrence lookup, keys unique in
a Python dict).  A connection is identified by `id`; `sendOk` is whether
`connection.send_json(message)` succeeds for the message being broadcast
(a failing send raises and is caught per-connection). -/
structure Conn where
  id : ℕ
  sendOk : Bool
deriving DecidableEq, Repr

/-- First-occurrence association-list lookup (`room in dict` / `dict[room]`). -/
def lookupRoom (rooms : List (String × List Conn)) (room : String) : Option (List Conn) :=
  match rooms with
  | [] => none
  | (r, cs) :: rest => if r = room then some cs else lookupRoom rest room

/-- Replace the connection set stored under an existing room key. -/
def setRoom (rooms : List (String × List Conn)) (room : String) (cs : List Conn) :
    List (String × List Conn) :=
  match rooms with
  | [] => []
  | (r, old) :: rest =>
    if r = room then (r, cs) :: rest else (r, old) :: setRoom rest room cs

/-- Result of one `broadcast_to_room` call: the connections the message
was delivered to and the connection map afterwards. -/
structure BroadcastResult where
  delivered : List Conn
  rooms : List (String × List Conn)
deriving Repr

/-- backend/common/websocket.py: `ConnectionManager.broadcast_to_room`.
An unknown room returns with no change; otherwise every connection of
the room is sent the message, each send failure is caught and the failing
connection collected into `disconnected`, and after the delivery loop the
failed connections (and only those) are discarded from the room.  The
string-to-dict conversion and timestamp stamping of the message are
orthogonal to delivery and are not modelled.  The function is total: the
call always returns normally. -/
def broadcastToRoom (rooms : List (String × List Conn)) (room : String) : BroadcastResult :=
  match lookupRoom rooms room with
  | none => { delivered := [], rooms := rooms }
  | some conns =>
    let delivered := conns.filter (fun c => c.sendOk)
    let remaining := conns.filter (fun c => c.sendOk)
    { delivered := delivered, rooms := setRoom rooms room remaining }

end Hub

namespace Risk

theorem calculatePositionSize_lower (cfg : RiskConfig) (e c s : ℚ) :
    1/100 ≤ calculatePositionSize cfg e c s :=
  le_max_left _ _

theorem calculatePositionSize_upper (cfg : RiskConfig) (e c s : ℚ) :
    calculatePositionSize cfg e c s ≤ 10 :=
  max_le (by norm_num) (min_le_right _ _)

theorem checkDailyLoss_inv (cfg : RiskConfig) (stats : DailyStats) (e : ℚ) (a : Acc)
    (h : a.reasons ≠ [] → a.approved = false) :
    (checkDailyLoss cfg stats e a).reasons ≠ [] → (checkDailyLoss cfg stats e a).approved = false := by
  simp only [checkDailyLoss]
  split_ifs <;> simp_all

theorem checkConsecutiveLosses_inv (cfg : RiskConfig) (stats : DailyStats) (a : Acc)
    (h : a.reasons ≠ [] → a.approved = false) :
    (checkConsecutiveLosses cfg stats a).reasons ≠ [] →
      (checkConsecutiveLosses cfg stats a).approved = false := by
  simp only [checkConsecutiveLosses]
  split_ifs <;> simp_all

theorem checkTotalPositions_inv (cfg : RiskConfig) (ps : List Position) (a : Acc)
    (h : a.reasons ≠ [] → a.approved = false) :
    (checkTotalPositions cfg ps a).reasons ≠ [] → (checkTotalPositions cfg ps a).approved = false := by
  simp only [checkTotalPositions]
  split_ifs <;> simp_all

theorem checkSymbolPositions_inv (cfg : RiskConfig) (ps : List Position) (sym : String) (a : Acc)
    (h : a.reasons ≠ [] → a.approved = false) :
    (checkSymbolPositions cfg ps sym a).reasons ≠ [] →
      (checkSymbolPositions cfg ps sym a).approved = false := by
  simp only [checkSymbolPositions]
  split_ifs <;> simp_all

theorem checkSpread_inv (cfg : RiskConfig) (sp : Option ℚ) (a : Acc)
    (h : a.reasons ≠ [] → a.approved = false) :
    (checkSpread cfg sp a).reasons ≠ [] → (checkSpread cfg sp a).approved = false := by
  cases sp with
  | none => exact h
  | some s =>
    simp only [checkSpread]
    split_ifs <;> simp_all

theorem checkVolatility_inv (cfg : RiskConfig) (v : Option ℚ) (a : Acc)
    (h : a.reasons ≠ [] → a.approved = false) :
    (checkVolatility cfg v a).reasons ≠ [] → (checkVolatility cfg v a).approved = false := by
  cases v with
  | none => exact h
  | some s =>
    simp only [checkVolatility]
    split_ifs <;> simp_all

theorem checkExposure_inv (cfg : RiskConfig) (ps : List Position) (e lots : ℚ) (a : Acc)
    (h : a.reasons ≠ [] → a.approved = false) :
    (checkExposure cfg ps e lots a).1.reasons ≠ [] →
      (checkExposure cfg ps e lots a).1.approved = false := by
  simp only [checkExposure]
  split_ifs <;> simp_all

theorem checkConfidence_inv (c : ℚ) (a : Acc)
    (h : a.reasons ≠ [] → a.approved = false) :
    (checkConfidence c a).reasons ≠ [] → (checkConfidence c a).approved = false := by
  simp only [checkConfidence]
  split_ifs <;> simp_all

theorem checkExposure_size_bounds (cfg : RiskConfig) (ps : List Position) (e lots : ℚ) (a : Acc)
    (hlo : 1/100 ≤ lots) (hhi : lots ≤ 10) :
    0 ≤ (checkExposure cfg ps e lots a).2 ∧ (checkExposure cfg ps e lots a).2 ≤ 10 := by
  simp only [checkExposure]
  split_ifs with h1 h2
  · exact ⟨le_trans (by norm_num) hlo, hhi⟩
  · exact ⟨le_min (le_trans (by norm_num) hlo) (le_of_lt (lt_of_not_le h2)),
      le_trans (min_le_left _ _) hhi⟩
  · exact ⟨le_trans (by norm_num) hlo, hhi⟩

theorem checkExposure_headroom (cfg : RiskConfig) (ps : List Position) (e lots : ℚ) (a : Acc)
    (hhead : maxExposure cfg e ≤ currentExposure ps) (hlo : 1/100 ≤ lots) :
    checkExposure cfg ps e lots a =
      ({ a with approved := false, reasons := a.reasons ++ [Reason.exposureLimit] }, lots) := by
  have h1000 : (1/100 : ℚ) * 100000 ≤ lots * 100000 :=
    mul_le_mul_of_nonneg_right hlo (by norm_num)
  have hcond : maxExposure cfg e < currentExposure ps + lots * 100000 := by
    nlinarith
  have hnl : (maxExposure cfg e - currentExposure ps) / 100000 ≤ 0 := by
    apply div_nonpos_of_nonpos_of_nonneg <;> linarith
  simp only [checkExposure]
  rw [if_pos hcond, if_pos hnl]

theorem checkConfidence_keeps_false (c : ℚ) (a : Acc) (h : a.approved = false) :
    (checkConfidence c a).approved = false := by
  simp only [checkConfidence]
  split_ifs <;> simp_all

theorem checkConfidence_keeps_reason (c : ℚ) (a : Acc) (r : Reason) (h : r ∈ a.reasons) :
    r ∈ (checkConfidence c a).reasons := by
  simp only [checkConfidence]
  split_ifs <;> simp_all

/-- C1 (code_bug): the confidence floor of `assess_trade` is not enforced
by the code.  With the kill switch inactive and a signal confidence of
0.4 — strictly below the documented absolute minimum of 0.5 — and every
other check passing, the assessment is APPROVED with merely a
low-confidence warning, because the rejection branch
`elif signal_confidence < 0.5` is unreachable: any confidence below 0.5
already satisfies the preceding guard `if signal_confidence < 0.6`.  The
dead rejection branch in the source shows the intended behaviour (and
matches the spec), so the code, not the claim, is wrong.  The claim's
second half (confidence in [0.5, 0.6) approved with a warning and an
elevated risk level) is what the code in fact does for all of [0, 0.6). -/
theorem c1_dead_confidence_floor :
    (assessTrade defaultRiskConfig freshStats "EURUSD" "buy" 10000 10000 (2/5) 2500 [] none none).approved = true
    ∧ Warning.lowConfidence ∈ (assessTrade defaultRiskConfig freshStats "EURUSD" "buy"
        10000 10000 (2/5) 2500 [] none none).warnings
    ∧ (assessTrade defaultRiskConfig freshStats "EURUSD" "buy" 10000 10000 (2/5) 2500 [] none none).reasons = [] := by
  norm_num [assessTrade, checkDailyLoss, checkConsecutiveLosses, checkTotalPositions,
    checkSymbolPositions, checkSpread, checkVolatility, checkExposure, checkConfidence,
    calculatePositionSize, round2, defaultRiskConfig, freshStats, initAcc,
    currentExposure, maxExposure, RiskLevel.maxBy, RiskLevel.index]

/-- C2: with the kill switch active, `assess_trade` returns
`approved = false`, `risk_level = critical` and position size 0 with the
kill-switch reason, for every combination of the remaining inputs and of
the daily counters. -/
theorem c2_kill_switch (cfg : RiskConfig) (stats : DailyStats) (symbol direction : String)
    (bal e conf stop : ℚ) (ps : List Position) (sp v : Option ℚ)
    (hk : cfg.kill_switch_active = true) :
    assessTrade cfg stats symbol direction bal e conf stop ps sp v =
      { approved := false, risk_level := .critical, position_size_lots := 0,
        reasons := [.killSwitch], warnings := [] } := by
  simp only [assessTrade]
  rw [if_pos hk]

/-- Witness for C2 at a concrete kill-switch configuration. -/
theorem c2_kill_switch_witness :
    ({ defaultRiskConfig with kill_switch_active := true } : RiskConfig).kill_switch_active = true ∧
    assessTrade { defaultRiskConfig with kill_switch_active := true } freshStats "EURUSD" "buy"
        10000 10000 1 50 [] none none =
      { approved := false, risk_level := .critical, position_size_lots := 0,
        reasons := [.killSwitch], warnings := [] } :=
  ⟨rfl, c2_kill_switch _ _ _ _ _ _ _ _ _ _ _ rfl⟩

/-- C3 (counterexample): the kill-switch path returns
`position_size_lots = 0`, which is NOT within the configured lot bounds
[0.01, 10.0], so the claimed data-model invariant fails as stated. -/
theorem c3_size_bound_counterexample :
    (assessTrade { defaultRiskConfig with kill_switch_active := true } freshStats "EURUSD" "buy"
        10000 10000 1 50 [] none none).position_size_lots = 0
    ∧ ¬ ((1 : ℚ)/100 ≤ 0) := by
  constructor
  · rfl
  · norm_num

/-- C3 (amended): every assessment returned by `assess_trade` has
`approved = false` whenever the reasons list is non-empty, and a position
size in [0, 10.0].  The lower bound 0.01 does not hold in general: the
kill-switch path returns 0, and the exposure-reduction branch can shrink
the size below 0.01 (to any positive remaining headroom). -/
theorem c3_amended_invariant (cfg : RiskConfig) (stats : DailyStats) (symbol direction : String)
    (bal e conf stop : ℚ) (ps : List Position) (sp v : Option ℚ) :
    ((assessTrade cfg stats symbol direction bal e conf stop ps sp v).reasons ≠ [] →
      (assessTrade cfg stats symbol direction bal e conf stop ps sp v).approved = false)
    ∧ 0 ≤ (assessTrade cfg stats symbol direction bal e conf stop ps sp v).position_size_lots
    ∧ (assessTrade cfg stats symbol direction bal e conf stop ps sp v).position_size_lots ≤ 10 := by
  by_cases hk : cfg.kill_switch_active = true
  · simp only [assessTrade]
    rw [if_pos hk]
    exact ⟨fun _ => rfl, le_refl 0, by norm_num⟩
  · simp only [assessTrade]
    rw [if_neg hk]
    refine ⟨?_, ?_⟩
    · exact checkConfidence_inv _ _ (checkExposure_inv _ _ _ _ _ (checkVolatility_inv _ _ _
        (checkSpread_inv _ _ _ (checkSymbolPositions_inv _ _ _ _ (checkTotalPositions_inv _ _ _
        (checkConsecutiveLosses_inv _ _ _ (checkDailyLoss_inv _ _ _ _ (by simp [initAcc]))))))))
    · exact checkExposure_size_bounds _ _ _ _ _ (calculatePositionSize_lower _ _ _ _)
        (calculatePositionSize_upper _ _ _ _)

/-- Witness for C3 (amended) at a concrete input with a non-empty reasons
list (the kill-switch configuration). -/
theorem c3_amended_invariant_witness :
    ((assessTrade { defaultRiskConfig with kill_switch_active := true } freshStats "EURUSD" "buy"
        10000 10000 1 50 [] none none).reasons ≠ [] →
      (assessTrade { defaultRiskConfig with kill_switch_active := true } freshStats "EURUSD" "buy"
        10000 10000 1 50 [] none none).approved = false)
    ∧ 0 ≤ (assessTrade { defaultRiskConfig with kill_switch_active := true } freshStats "EURUSD" "buy"
        10000 10000 1 50 [] none none).position_size_lots
    ∧ (assessTrade { defaultRiskConfig with kill_switch_active := true } freshStats "EURUSD" "buy"
        10000 10000 1 50 [] none none).position_size_lots ≤ 10 :=
  c3_amended_invariant _ _ _ _ _ _ _ _ _ _ _

/-- C4 (counterexample): with the exposure budget already fully consumed,
the assessment is rejected with the exposure-limit reason, but the
returned `position_size_lots` is the raw computed size (here 1.0), NOT 0
as the claim states — the `max_new_lots <= 0` branch appends the reason
without zeroing `position_size_lots`. -/
theorem c4_size_counterexample :
    (assessTrade defaultRiskConfig freshStats "EURUSD" "buy" 10000 10000 1 50
        [{ symbol := "EURUSD", volume := 1/2 }] none none).position_size_lots = 1
    ∧ (1 : ℚ) ≠ 0
    ∧ maxExposure defaultRiskConfig 10000 ≤ currentExposure [{ symbol := "EURUSD", volume := 1/2 }] := by
  refine ⟨?_, by norm_num, by norm_num [maxExposure, currentExposure, defaultRiskConfig]⟩
  norm_num [assessTrade, checkDailyLoss, checkConsecutiveLosses, checkTotalPositions,
    checkSymbolPositions, checkSpread, checkVolatility, checkExposure, checkConfidence,
    calculatePositionSize, round2, defaultRiskConfig, freshStats, initAcc,
    currentExposure, maxExposure, RiskLevel.maxBy, RiskLevel.index]

/-- C4 (amended): when the open positions already consume the entire
`max_total_exposure_pct` budget (headroom ≤ 0) and the kill switch is
off, `assess_trade` rejects with an exposure-limit reason, but the
returned `position_size_lots` equals the raw confidence-scaled clamped
size, unreduced — not 0. -/
theorem c4_exposure_full_rejects (cfg : RiskConfig) (stats : DailyStats) (symbol direction : String)
    (bal e conf stop : ℚ) (ps : List Position) (sp v : Option ℚ)
    (hk : cfg.kill_switch_active = false)
    (hhead : maxExposure cfg e ≤ currentExposure ps) :
    (assessTrade cfg stats symbol direction bal e conf stop ps sp v).approved = false
    ∧ Reason.exposureLimit ∈ (assessTrade cfg stats symbol direction bal e conf stop ps sp v).reasons
    ∧ (assessTrade cfg stats symbol direction bal e conf stop ps sp v).position_size_lots
        = calculatePositionSize cfg e conf stop := by
  have hk' : ¬ (cfg.kill_switch_active = true) := by simp [hk]
  simp only [assessTrade]
  rw [if_neg hk']
  rw [checkExposure_headroom cfg ps e _ _ hhead (calculatePositionSize_lower cfg e conf stop)]
  refine ⟨checkConfidence_keeps_false _ _ rfl, checkConfidence_keeps_reason _ _ _ (by simp), rfl⟩

/-- Witness for C4 (amended): equity 10000 with 30% exposure budget
(3000) already consumed by an open 0.5-lot position (50000 notional). -/
theorem c4_exposure_full_rejects_witness :
    (defaultRiskConfig.kill_switch_active = false
      ∧ maxExposure defaultRiskConfig 10000 ≤ currentExposure [{ symbol := "EURUSD", volume := 1/2 }])
    ∧ ((assessTrade defaultRiskConfig freshStats "EURUSD" "buy" 10000 10000 1 50
          [{ symbol := "EURUSD", volume := 1/2 }] none none).approved = false
        ∧ Reason.exposureLimit ∈ (assessTrade defaultRiskConfig freshStats "EURUSD" "buy" 10000 10000 1 50
          [{ symbol := "EURUSD", volume := 1/2 }] none none).reasons
        ∧ (assessTrade defaultRiskConfig freshStats "EURUSD" "buy" 10000 10000 1 50
          [{ symbol := "EURUSD", volume := 1/2 }] none none).position_size_lots
          = calculatePositionSize defaultRiskConfig 10000 1 50) :=
  ⟨⟨rfl, by norm_num [maxExposure, currentExposure, defaultRiskConfig]⟩,
   c4_exposure_full_rejects _ _ _ _ _ _ _ _ _ _ _ rfl
     (by norm_num [maxExposure, currentExposure, defaultRiskConfig])⟩

/-- C5 (counterexample): for equity 10000, max position size 5%,
confidence 1.0, stop distance 50 points and the hardcoded 10-per-point
value, `_calculate_position_size` returns 1.0 lots, not the claimed 0.1:
10000 * (5/100) / (50 * 10) = 500 / 500 = 1.0. -/
theorem c5_raw_size_counterexample :
    calculatePositionSize defaultRiskConfig 10000 1 50 = 1 ∧ (1 : ℚ) ≠ 1/10 := by
  constructor
  · norm_num [calculatePositionSize, round2, defaultRiskConfig]
  · norm_num

/-- C5 (amended): the position-size computation at equity 10000,
`max_position_size_pct` 5, confidence 1.0, stop distance 50 and point
value 10 returns a raw size of 1.0 lots before exposure clamping. -/
theorem c5_raw_size_one_lot :
    calculatePositionSize defaultRiskConfig 10000 1 50 = 1 := by
  norm_num [calculatePositionSize, round2, defaultRiskConfig]

end Risk

namespace Pipeline

/-- C7: for every outcome of the collaborator calls, the sequence of
persisted Signal statuses over one pipeline run is exactly RECEIVED
followed by exactly one terminal status (EXECUTED, REJECTED or FAILED):
the signal never returns to RECEIVED after leaving it and never takes on
two different terminal statuses. -/
theorem c7_status_trace (env : PipelineEnv) :
    ∃ t, (t = SignalStatus.executed ∨ t = SignalStatus.rejected ∨ t = SignalStatus.failed)
      ∧ processTrace env = [SignalStatus.received, t] := by
  obtain ⟨pr, vr⟩ := env
  cases pr with
  | error e => exact ⟨.failed, by simp, rfl⟩
  | ok p =>
    cases vr with
    | error e => exact ⟨.failed, by simp, rfl⟩
    | ok verdict =>
      by_cases ha : verdict.approved = true
      · exact ⟨.executed, by simp, by simp [processTrace, ha]⟩
      · exact ⟨.rejected, by simp, by simp [processTrace, Bool.eq_false_iff.mpr ha]⟩

end Pipeline

namespace LLMV

/-- C8 (counterexample): a 200 response whose body parses as JSON but
whose `confidence` field is not convertible by `float(...)` makes
`_parse_llm_response` raise internally; its own `except` branch then
returns a REJECTED verdict at confidence 0.0 — not the
approved-at-reduced-confidence fallback the claim states for every
collaborator failure. -/
theorem c8_illtyped_response_counterexample :
    (validateSignal true (.response
        { dictAccess := .ok ()
          approved := true
          confidence := .error "could not convert string to float: 'high'"
          reasoning := "No reasoning provided"
          favorable_factors := .ok []
          risk_factors := .ok [] })).1 = false
    ∧ (validateSignal true (.response
        { dictAccess := .ok ()
          approved := true
          confidence := .error "could not convert string to float: 'high'"
          reasoning := "No reasoning provided"
          favorable_factors := .ok []
          risk_factors := .ok [] })).2.2 = 0
    ∧ (validateSignal true (.response
        { dictAccess := .ok ()
          approved := true
          confidence := .error "could not convert string to float: 'high'"
          reasoning := "No reasoning provided"
          favorable_factors := .ok []
          risk_factors := .ok [] })).2.1
      = "Failed to parse LLM response: could not convert string to float: 'high'" :=
  ⟨rfl, rfl, rfl⟩

/-- C8 (amended): when the collaborator call fails — service
unreachable, non-200 status, JSON-unparseable body, or a JSON-parseable
body whose ill-typed fields make the parse raise — `validate_signal`
returns normally (the embedding is a total function) at reduced
confidence (below 1), and the returned reasoning text names the failure
or the fallback, so it is distinguishable from a genuine collaborator
verdict.  The verdict is APPROVED for the unreachable-service fallback
(confidence 0.7) and for the failures that raise inside `_call_llm`
(confidence 0.5), but a parseable body with ill-typed fields yields a
REJECTED verdict at confidence 0.0 — not the approval the original
claim states. -/
theorem c8_fallback (outcome : LLMOutcome) (h : isFailure outcome) :
    (validateSignal true outcome).2.2 < 1
    ∧ ((∃ rest, (validateSignal true outcome).2.1 = "LLM service unavailable. " ++ rest)
       ∨ (∃ rest, (validateSignal true outcome).2.1 = "LLM validation error: " ++ rest)
       ∨ (∃ rest, (validateSignal true outcome).2.1 = "Failed to parse LLM response: " ++ rest))
    ∧ (match outcome with
       | .response _ =>
         (validateSignal true outcome).1 = false ∧ (validateSignal true outcome).2.2 = 0
       | _ => (validateSignal true outcome).1 = true) := by
  cases outcome with
  | response r =>
    obtain ⟨da, ap, cf, rs, fav, rk⟩ := r
    cases da with
    | error e =>
      exact ⟨by norm_num [validateSignal, callLLM, parseLLMResponse],
        Or.inr (Or.inr ⟨e, rfl⟩), rfl, rfl⟩
    | ok u =>
      cases cf with
      | error e =>
        exact ⟨by norm_num [validateSignal, callLLM, parseLLMResponse],
          Or.inr (Or.inr ⟨e, rfl⟩), rfl, rfl⟩
      | ok c =>
        cases fav with
        | error e =>
          exact ⟨by norm_num [validateSignal, callLLM, parseLLMResponse],
            Or.inr (Or.inr ⟨e, rfl⟩), rfl, rfl⟩
        | ok f =>
          cases rk with
          | error e =>
            exact ⟨by norm_num [validateSignal, callLLM, parseLLMResponse],
              Or.inr (Or.inr ⟨e, rfl⟩), rfl, rfl⟩
          | ok k =>
            exact absurd h (by simp [isFailure, parseRaises])
  | connectionError =>
    refine ⟨by norm_num [validateSignal, callLLM, parseLLMResponse, fallbackValidation], ?_, rfl⟩
    left
    exact ⟨"Using rule-based fallback validation. AI and Risk checks passed.\n\nPositive factors: AI model approved, Risk manager approved\n\nRisk factors: LLM service offline, Limited validation depth", rfl⟩
  | httpError code =>
    refine ⟨by norm_num [validateSignal, callLLM], ?_, rfl⟩
    right; left
    exact ⟨"LLM call failed: LLM API error: " ++ toString code, rfl⟩
  | invalidJson msg =>
    refine ⟨by norm_num [validateSignal, callLLM], ?_, rfl⟩
    right; left
    exact ⟨"LLM call failed: " ++ msg, rfl⟩

/-- Witness for C8 (amended) at the concrete unreachable-service
outcome: approved at confidence 0.7 with the fallback reasoning. -/
theorem c8_fallback_witness :
    isFailure .connectionError
    ∧ ((validateSignal true .connectionError).2.2 < 1
       ∧ ((∃ rest, (validateSignal true .connectionError).2.1 = "LLM service unavailable. " ++ rest)
          ∨ (∃ rest, (validateSignal true .connectionError).2.1 = "LLM validation error: " ++ rest)
          ∨ (∃ rest, (validateSignal true .connectionError).2.1 = "Failed to parse LLM response: " ++ rest))
       ∧ (validateSignal true .connectionError).1 = true) :=
  ⟨trivial, c8_fallback .connectionError trivial⟩

end LLMV

namespace Webhook

/-- C9 (counterexample): a webhook request carrying NO signature header
(the header default is the empty string) is not rejected: it is admitted,
a Signal record is created and a pipeline run is enqueued, because the
source only validates the signature when the header is non-empty
(`if signature and not ...validate_signature(...)`).  The concrete digest
function is irrelevant: this path never evaluates it. -/
theorem c9_unsigned_admitted_counterexample :
    receiveSignal (fun _ => "aa")
        { body := "{}", signature := "", rateAllowed := true, payloadValid := true }
      = AdmissionOutcome.admitted true true := rfl

/-- C9 (amended): every webhook request that passes the rate limit and
carries a NON-EMPTY signature header whose HMAC digest does not match is
rejected synchronously with the authentication error, and no Signal is
created and no pipeline run enqueued (only the `admitted` outcome creates
or enqueues anything). -/
theorem c9_bad_signature_rejected (hmacHex : String → String) (req : WebhookRequest)
    (hr : req.rateAllowed = true) (hs : req.signature ≠ "")
    (hbad : hmacHex req.body ≠ req.signature) :
    receiveSignal hmacHex req = AdmissionOutcome.invalidSignature := by
  simp only [receiveSignal, hr]
  rw [if_neg (by simp), if_pos ⟨hs, hbad⟩]

/-- Witness for C9 (amended) at a concrete mismatching signature. -/
theorem c9_bad_signature_rejected_witness :
    (({ body := "x", signature := "bb", rateAllowed := true, payloadValid := true } : WebhookRequest).rateAllowed = true
      ∧ ({ body := "x", signature := "bb", rateAllowed := true, payloadValid := true } : WebhookRequest).signature ≠ ""
      ∧ (fun _ => "aa" : String → String) "x" ≠ "bb")
    ∧ receiveSignal (fun _ => "aa")
        { body := "x", signature := "bb", rateAllowed := true, payloadValid := true }
      = AdmissionOutcome.invalidSignature :=
  ⟨⟨rfl, by decide, by decide⟩,
   c9_bad_signature_rejected _ _ rfl (by decide) (by decide)⟩

end Webhook

namespace Hub

theorem lookupRoom_setRoom_self (rooms : List (String × List Conn)) (room : String)
    (cs conns : List Conn) (h : lookupRoom rooms room = some conns) :
    lookupRoom (setRoom rooms room cs) room = some cs := by
  induction rooms with
  | nil => simp [lookupRoom] at h
  | cons hd tl ih =>
    obtain ⟨r, old⟩ := hd
    by_cases hr : r = room
    · simp [lookupRoom, setRoom, hr]
    · simp only [lookupRoom, setRoom, if_neg hr] at h ⊢
      exact ih h

theorem lookupRoom_setRoom_other (rooms : List (String × List Conn)) (room other : String)
    (cs : List Conn) (hne : other ≠ room) :
    lookupRoom (setRoom rooms room cs) other = lookupRoom rooms other := by
  induction rooms with
  | nil => simp [lookupRoom, setRoom]
  | cons hd tl ih =>
    obtain ⟨r, old⟩ := hd
    by_cases hr : r = room
    · subst hr
      simp [lookupRoom, setRoom, if_neg (Ne.symm hne)]
    · simp only [lookupRoom, setRoom, if_neg hr]
      split <;> [rfl; exact ih]

/-- C10: broadcasting to a room delivers the message to exactly the
subscribers whose send succeeds; a send failure to one subscriber removes
only that subscriber — the room afterwards holds exactly the successful
subscribers, every other room is untouched — and the call itself always
returns normally (the embedding is a total function, reflecting the
per-connection `try`/`except` of the source). -/
theorem c10_broadcast_isolation (rooms : List (String × List Conn)) (room : String)
    (conns : List Conn) (h : lookupRoom rooms room = some conns) :
    (broadcastToRoom rooms room).delivered = conns.filter (fun c => c.sendOk)
    ∧ lookupRoom (broadcastToRoom rooms room).rooms room = some (conns.filter (fun c => c.sendOk))
    ∧ (∀ other, other ≠ room →
        lookupRoom (broadcastToRoom rooms room).rooms other = lookupRoom rooms other)
    ∧ (∀ c ∈ conns, c.sendOk = true → c ∈ (broadcastToRoom rooms room).delivered)
    ∧ (∀ c ∈ conns, c.sendOk = false →
        ∀ remaining, lookupRoom (broadcastToRoom rooms room).rooms room = some remaining →
          c ∉ remaining) := by
  have hb : broadcastToRoom rooms room =
      { delivered := conns.filter (fun c => c.sendOk),
        rooms := setRoom rooms room (conns.filter (fun c => c.sendOk)) } := by
    simp only [broadcastToRoom, h]
  rw [hb]
  refine ⟨rfl, lookupRoom_setRoom_self _ _ _ _ h, ?_, ?_, ?_⟩
  · intro other hne
    exact lookupRoom_setRoom_other _ _ _ _ hne
  · intro c hc hok
    simp [List.mem_filter, hc, hok]
  · intro c hc hfail remaining hrem
    rw [lookupRoom_setRoom_self _ _ _ _ h] at hrem
    cases hrem
    simp [List.mem_filter, hfail]

end Hub

namespace RateLimit

theorem prune_prune (window T c : Int) (hTc : T ≤ c) (A : List Int) :
    prune window c (prune window T A) = prune window c A := by
  simp only [prune, List.filter_filter]
  apply List.filter_congr
  intro a _
  by_cases hca : c - window < a
  · have hTa : T - window < a := by omega
    simp [hca, hTa]
  · simp [hca]

theorem prune_append_now (window c : Int) (hw : 0 < window) (A : List Int) :
    prune window c (A ++ [c]) = prune window c A ++ [c] := by
  simp [prune, List.filter_append, show c - window < c by omega]

theorem runCalls_split_bound (max_requests : ℕ) (window : Int) (hw : 0 < window) :
    ∀ (calls A : List Int) (T : Int),
      List.Pairwise (· ≤ ·) calls →
      (∀ c ∈ calls, T ≤ c) →
      (∀ a ∈ A, a ≤ T) →
      ∀ B₁ t B₂,
        (runCalls max_requests window (prune window T A) calls).2 = B₁ ++ t :: B₂ →
        (prune window t (A ++ B₁ ++ [t])).length ≤ max_requests := by
  intro calls
  induction calls with
  | nil =>
    intro A T _ _ _ B₁ t B₂ h
    simp [runCalls] at h
  | cons c cs ih =>
    intro A T hpair hTc hAT B₁ t B₂ h
    have hTle : T ≤ c := hTc c (by simp)
    have hpcs : List.Pairwise (· ≤ ·) cs := (List.pairwise_cons.mp hpair).2
    have hccs : ∀ x ∈ cs, c ≤ x := (List.pairwise_cons.mp hpair).1
    simp only [runCalls, is_allowed, prune_prune window T c hTle A] at h
    by_cases hfull : max_requests ≤ (prune window c A).length
    · rw [if_pos hfull] at h
      simp only [List.nil_append] at h
      have hAc : ∀ a ∈ A, a ≤ c := fun a ha => le_trans (hAT a ha) hTle
      exact ih A c hpcs hccs hAc B₁ t B₂ h
    · rw [if_neg hfull] at h
      have hstate : prune window c A ++ [c] = prune window c (A ++ [c]) :=
        (prune_append_now window c hw A).symm
      rw [hstate] at h
      simp only [List.singleton_append] at h
      cases B₁ with
      | nil =>
        simp only [List.nil_append] at h
        injection h with hct hrest
        subst hct
        simp only [List.append_nil, List.nil_append]
        rw [prune_append_now window c hw A]
        simp only [List.length_append, List.length_singleton]
        omega
      | cons b B₁' =>
        simp only [List.cons_append] at h
        injection h with hcb hrest
        subst hcb
        have hAc : ∀ a ∈ A ++ [c], a ≤ c := by
          intro a ha
          rcases List.mem_append.mp ha with h1 | h1
          · exact le_trans (hAT a h1) hTle
          · simp at h1; omega
        have hrec := ih (A ++ [c]) c hpcs hccs hAc B₁' t B₂ hrest
        have heq : A ++ (c :: B₁') ++ [t] = (A ++ [c]) ++ B₁' ++ [t] := by
          simp [List.append_assoc]
        rw [heq]
        exact hrec

theorem window_count_of_split_bound (max_requests : ℕ) (window : Int) :
    ∀ (B : List Int),
      (∀ B₁ t B₂, B = B₁ ++ t :: B₂ → (prune window t (B₁ ++ [t])).length ≤ max_requests) →
      ∀ s : Int,
        (B.filter (fun a => decide (s < a) && decide (a ≤ s + window))).length ≤ max_requests := by
  intro B
  induction B using List.reverseRecOn with
  | nil => intro _ s; simp
  | append_singleton B' b ih =>
    intro hsplit s
    by_cases hPb : s < b ∧ b ≤ s + window
    · have hb : (prune window b (B' ++ [b])).length ≤ max_requests :=
        hsplit B' b [] rfl
      have hmono : List.Sublist
          ((B' ++ [b]).filter (fun a => decide (s < a) && decide (a ≤ s + window)))
          ((B' ++ [b]).filter (fun ts => decide (b - window < ts))) := by
        apply List.monotone_filter_right
        intro a ha
        simp only [Bool.and_eq_true, decide_eq_true_eq] at ha
        simp only [decide_eq_true_eq]
        omega
      exact le_trans hmono.length_le hb
    · have hfb : (decide (s < b) && decide (b ≤ s + window)) = false := by
        simp only [Bool.and_eq_false_iff, decide_eq_false_iff_not]
        omega
      rw [List.filter_append]
      have : List.filter (fun a => decide (s < a) && decide (a ≤ s + window)) [b] = [] := by
        simp [hfb]
      rw [this, List.append_nil]
      apply ih
      intro B₁ t B₂ hB
      exact hsplit B₁ t (B₂ ++ [b]) (by rw [hB]; simp)

theorem runCalls_prune_invariant (max_requests : ℕ) (window : Int) :
    ∀ (future : List Int) (st : List Int) (now : Int),
      (∀ u ∈ future, now ≤ u) →
      (runCalls max_requests window (prune window now st) future).2
        = (runCalls max_requests window st future).2 := by
  intro future
  induction future with
  | nil => intro st now _; simp [runCalls]
  | cons u us ih =>
    intro st now hfut
    have hnu : now ≤ u := hfut u (by simp)
    simp only [runCalls, is_allowed, prune_prune window now u hnu st]

/-- C6: for any key, positive window and non-decreasing injected
timestamps, (1) a run of `is_allowed` calls starting from the fresh
record admits at most `max_requests` calls inside any half-open sliding
interval `(s, s + window]`; (2) an admitted call records its timestamp in
the key's record; (3) a refused call leaves the record observably
unchanged: every subsequent call sequence at times at or after the
refusal produces exactly the same admission outcomes as if the refused
call had never pruned the record. -/
theorem c6_rate_limiter (max_requests : ℕ) (window : Int) (calls : List Int) (s : Int)
    (hw : 0 < window) (hsorted : List.Pairwise (· ≤ ·) calls) :
    (((runCalls max_requests window [] calls).2).filter
        (fun a => decide (s < a) && decide (a ≤ s + window))).length ≤ max_requests
    ∧ (∀ st now, (is_allowed max_requests window st now).1 = true →
        now ∈ (is_allowed max_requests window st now).2)
    ∧ (∀ st now future, (is_allowed max_requests window st now).1 = false →
        (∀ u ∈ future, now ≤ u) →
        (runCalls max_requests window (is_allowed max_requests window st now).2 future).2
          = (runCalls max_requests window st future).2) := by
  refine ⟨?_, ?_, ?_⟩
  · cases calls with
    | nil => simp [runCalls]
    | cons c cs =>
      apply window_count_of_split_bound
      intro B₁ t B₂ hB
      have hstart : (prune window c ([] : List Int)) = ([] : List Int) := rfl
      have hpcs : ∀ x ∈ c :: cs, c ≤ x := by
        intro x hx
        rcases List.mem_cons.mp hx with h1 | h1
        · omega
        · exact (List.pairwise_cons.mp hsorted).1 x h1
      have := runCalls_split_bound max_requests window hw (c :: cs) [] c hsorted hpcs
        (by simp) B₁ t B₂ (by rw [hstart]; exact hB)
      simpa using this
  · intro st now h1
    by_cases hc : max_requests ≤ (prune window now st).length
    · simp [is_allowed, hc] at h1
    · simp [is_allowed, hc]
  · intro st now future h1 hfut
    have hstate : (is_allowed max_requests window st now).2 = prune window now st := by
      by_cases hc : max_requests ≤ (prune window now st).length
      · simp [is_allowed, hc]
      · simp [is_allowed, hc] at h1
    rw [hstate]
    exact runCalls_prune_invariant max_requests window future st now hfut

/-- Witness for C6: five calls at times 0, 1, 5, 9, 12 with limit 2 per
10-second window; the window (0, 10] retains at most 2 admissions. -/
theorem c6_rate_limiter_witness :
    ((0:Int) < 10 ∧ List.Pairwise (fun a b : Int => a ≤ b) [0, 1, 5, 9, 12])
    ∧ (((runCalls 2 10 [] [0, 1, 5, 9, 12]).2).filter
        (fun a => decide ((0:Int) < a) && decide (a ≤ 0 + 10))).length ≤ 2 :=
  ⟨⟨by decide, by decide⟩,
   (c6_rate_limiter 2 10 [0, 1, 5, 9, 12] 0 (by decide) (by decide)).1⟩

end RateLimit

namespace Hub

/-- Witness for C10: a two-room map where the second subscriber of the
`signals` room fails to receive; the other two are still delivered. -/
theorem c10_broadcast_isolation_witness :
    lookupRoom [("signals", [⟨1, true⟩, ⟨2, false⟩, ⟨3, true⟩]), ("trades", [⟨4, true⟩])] "signals"
      = some [⟨1, true⟩, ⟨2, false⟩, ⟨3, true⟩]
    ∧ (broadcastToRoom [("signals", [⟨1, true⟩, ⟨2, false⟩, ⟨3, true⟩]), ("trades", [⟨4, true⟩])]
        "signals").delivered = [⟨1, true⟩, ⟨3, true⟩] :=
  ⟨rfl, by
    have := c10_broadcast_isolation
      [("signals", [⟨1, true⟩, ⟨2, false⟩, ⟨3, true⟩]), ("trades", [⟨4, true⟩])] "signals"
      [⟨1, true⟩, ⟨2, false⟩, ⟨3, true⟩] rfl
    rw [this.1]
    rfl⟩

end Hub
